import Mathlib

/-!
Shallow embedding of `shared_jquants_api/jquants_api.py` (class `JQuantsAPI`).

The network is modelled as an oracle `T : Nat → Params → Nat → Resp α`
giving the outcome of the HTTP GET for a given page-call index, request
parameters and attempt index.  Record payloads are opaque values of a
type parameter `α`.  Every sleep and every issued request is logged in a
list of events so that "no network call is made" and "the next request
carries these parameters" are first-class statements.  Wall-clock
durations (floats in the source) are modelled as rationals; the jitter
`random.uniform(0, 1)` is an oracle `jitter : Nat → ℚ`.
-/

/-- A calendar date, standing for Python's `datetime.date.today()` value. -/
structure Date where
  year : Nat
  month : Nat
  day : Nat
deriving DecidableEq

/-- Left-pad the decimal representation of `n` with zeros to width `w`. -/
def zeroPad (w : Nat) (n : Nat) : String :=
  let s := toString n
  String.mk (List.replicate (w - s.length) '0') ++ s

/-- Embeds `d.strftime("%Y%m%d")`. -/
def formatYYYYMMDD (d : Date) : String :=
  zeroPad 4 d.year ++ zeroPad 2 d.month ++ zeroPad 2 d.day

/-- Per-client configuration, mirroring the fields set in `JQuantsAPI.__init__`.
`api_max_retries` is an `Int` because Python's `int(...)` may be zero or
negative. -/
structure Config where
  api_key : String
  base_url : String
  master_date_override : String
  api_sleep_sec : ℚ
  api_max_retries : Int
  api_backoff_base : ℚ

/-- One parsed JSON response body.  A field is `none` when the key is absent
from the object; a present-but-falsy cursor (empty string, and likewise JSON
null) is modelled as `some ""`. -/
structure Payload (α : Type) where
  data : List α
  pagination_key : Option String
  paginationKey : Option String
deriving DecidableEq

/-- Query parameters of one GET request.  The outer `Option` of
`pagination_key` is key presence; the inner one is the value placed there,
which the source computes with Python `or` and may be falsy. -/
structure Params where
  code : Option String
  date : Option String
  pagination_key : Option (Option String)
deriving DecidableEq

/-- Outcome of one attempted HTTP GET: a 2xx response with parsed JSON body,
an HTTP 429 with an optional parsed `Retry-After` header, or anything that
makes `raise_for_status`/`requests.get` raise one of the caught exceptions. -/
inductive Resp (α : Type) where
  | success (p : Payload α)
  | rateLimited (retryAfter : Option ℚ)
  | error
deriving DecidableEq

/-- Observable side effects of the client: throttle sleeps, issued requests
(call index, attempt index, parameters), 429 backoff sleeps and generic-error
backoff sleeps. -/
inductive Ev where
  | throttle (d : ℚ)
  | request (call : Nat) (attempt : Nat) (params : Params)
  | rateLimitSleep (attempt : Nat) (d : ℚ)
  | backoffSleep (attempt : Nat) (d : ℚ)
deriving DecidableEq

/-- The exceptions the source raises to its caller. -/
inductive PyErr where
  | valueError (msg : String)
  | requestException (msg : String)
deriving DecidableEq

/-- Result of an aggregating endpoint: normal return, a raised exception, or
divergence (the pagination loop never sees a cursor-free page; modelled by
fuel exhaustion). -/
inductive PyResult (β : Type) where
  | ok (v : β)
  | err (e : PyErr)
  | diverge
deriving DecidableEq

/-- Shape of the Python value returned by `fetch_statements`: a list, or a
dict of string keys to record lists. -/
inductive SValue (α : Type) where
  | vlist (xs : List α)
  | vdict (entries : List (String × List α))
deriving DecidableEq

/-- Python truthiness of an optional string: `None` and `""` are falsy. -/
def pyTruthy : Option String → Bool
  | none => false
  | some s => s != ""

/-- Python `a or b` on optional strings. -/
def pyOr (a b : Option String) : Option String :=
  if pyTruthy a then a else b

/-- Embeds `"pagination_key" in payload or "paginationKey" in payload`. -/
def hasCursor (p : Payload α) : Bool :=
  p.pagination_key.isSome || p.paginationKey.isSome

/-- Embeds `payload.get("pagination_key") or payload.get("paginationKey")`. -/
def cursorVal (p : Payload α) : Option String :=
  pyOr p.pagination_key p.paginationKey

/-- Embeds Python `s.replace("-", "")`: removes every dash. -/
def stripDashes (s : String) : String :=
  String.mk (s.data.filter (fun c => c != '-'))

/-- Embeds `JQuantsAPI._normalize_date`.  `today` stands for
`datetime.date.today()`. -/
def normalize_date (cfg : Config) (today : Date) (date : Option String) : String :=
  if cfg.master_date_override != "" then cfg.master_date_override
  else
    match date with
    | some d => if d != "" then stripDashes d else formatYYYYMMDD today
    | none => formatYYYYMMDD today

/-- The attempt loop of `JQuantsAPI._get_with_retry`
(`for attempt in range(self.api_max_retries)`), with the remaining iteration
count as structural fuel; callers start it with
`fuel = api_max_retries.toNat` and `attempt = 0`, which keeps
`fuel = api_max_retries - attempt` throughout. -/
def getLoop (cfg : Config) (i : Nat) (params : Params) (tr : Nat → Resp α)
    (jitter : Nat → ℚ) : Nat → Nat → Option (Payload α) × List Ev
  | 0, _ => (none, [])
  | fuel+1, attempt =>
    let pre : List Ev := if 0 < cfg.api_sleep_sec then [Ev.throttle cfg.api_sleep_sec] else []
    match tr attempt with
    | Resp.success p => (some p, pre ++ [Ev.request i attempt params])
    | Resp.rateLimited ra =>
      let w : ℚ :=
        match ra with
        | some r => r
        | none => cfg.api_backoff_base * (2 : ℚ) ^ attempt + jitter attempt
      let rest := getLoop cfg i params tr jitter fuel (attempt + 1)
      (rest.1, pre ++ [Ev.request i attempt params, Ev.rateLimitSleep attempt w] ++ rest.2)
    | Resp.error =>
      if (attempt : Int) ≥ cfg.api_max_retries - 1 then
        (none, pre ++ [Ev.request i attempt params])
      else
        let rest := getLoop cfg i params tr jitter fuel (attempt + 1)
        (rest.1, pre ++ [Ev.request i attempt params, Ev.backoffSleep attempt cfg.api_backoff_base] ++ rest.2)

/-- Embeds `JQuantsAPI._get_with_retry` (source name `_get_with_retry`):
`self._headers()` raises `ValueError` when no API key is set, otherwise the
attempt loop runs and exhaustion is signalled by `none`. -/
def get_with_retry (cfg : Config) (T : Nat → Params → Nat → Resp α)
    (jitter : Nat → ℚ) (i : Nat) (params : Params) :
    Except PyErr (Option (Payload α)) × List Ev :=
  if cfg.api_key = "" then
    (Except.error (PyErr.valueError "JQUANTS_API_KEY is not set."), [])
  else
    let r := getLoop cfg i params (T i params) jitter cfg.api_max_retries.toNat 0
    (Except.ok r.1, r.2)

/-- The shared `while "pagination_key" in payload or "paginationKey" in payload`
loop of `fetch_equities_master_all` and `fetch_statements`, with fuel bounding
the number of further page fetches.  `i` is the index of the next page call,
`payload` the page just received, `acc` the records accumulated so far. -/
def fetchAllAux (cfg : Config) (T : Nat → Params → Nat → Resp α)
    (jitter : Nat → ℚ) (msg : String) :
    Nat → Nat → Params → Payload α → List α → PyResult (List α) × List Ev
  | 0, _, _, payload, acc =>
    if hasCursor payload then (PyResult.diverge, []) else (PyResult.ok acc, [])
  | fuel+1, i, params, payload, acc =>
    if hasCursor payload then
      let params2 := Params.mk params.code params.date (some (cursorVal payload))
      let r := get_with_retry cfg T jitter i params2
      match r.1 with
      | Except.error e => (PyResult.err e, r.2)
      | Except.ok none => (PyResult.err (PyErr.requestException msg), r.2)
      | Except.ok (some p2) =>
        let rest := fetchAllAux cfg T jitter msg fuel (i + 1) params2 p2 (acc ++ p2.data)
        (rest.1, r.2 ++ rest.2)
    else (PyResult.ok acc, [])

/-- Embeds `JQuantsAPI.fetch_equities_master` (one underlying call, ignoring
the `lru_cache` wrapper, which is modelled separately by `cachedCall`). -/
def fetch_equities_master (cfg : Config) (T : Nat → Params → Nat → Resp α)
    (jitter : Nat → ℚ) (today : Date) (code : String) (date : Option String) :
    Except PyErr (Option α) × List Ev :=
  if code = "" then (Except.ok none, [])
  else
    let params := Params.mk (some code) (some (normalize_date cfg today date)) none
    let r := get_with_retry cfg T jitter 0 params
    match r.1 with
    | Except.error e => (Except.error e, r.2)
    | Except.ok none => (Except.ok none, r.2)
    | Except.ok (some payload) =>
      match payload.data with
      | [] => (Except.ok none, r.2)
      | x :: _ => (Except.ok (some x), r.2)

/-- Embeds `JQuantsAPI.fetch_equities_master_all`. -/
def fetch_equities_master_all (cfg : Config) (T : Nat → Params → Nat → Resp α)
    (jitter : Nat → ℚ) (fuel : Nat) (today : Date) (date : Option String) :
    PyResult (List α) × List Ev :=
  let params := Params.mk none (some (normalize_date cfg today date)) none
  let r := get_with_retry cfg T jitter 0 params
  match r.1 with
  | Except.error e => (PyResult.err e, r.2)
  | Except.ok none =>
    (PyResult.err (PyErr.requestException "Failed to fetch equities master after retries."), r.2)
  | Except.ok (some p) =>
    let rest := fetchAllAux cfg T jitter
      "Failed to fetch equities master pagination after retries." fuel 1 params p p.data
    (rest.1, r.2 ++ rest.2)

/-- Embeds `JQuantsAPI.fetch_statements`.  Note the source returns the dict
`{"data": data}`, modelled as `SValue.vdict`. -/
def fetch_statements (cfg : Config) (T : Nat → Params → Nat → Resp α)
    (jitter : Nat → ℚ) (fuel : Nat) (code : Option String) (date : Option String) :
    PyResult (SValue α) × List Ev :=
  if !pyTruthy code && !pyTruthy date then
    (PyResult.err (PyErr.valueError "Either code or date must be provided."), [])
  else
    let params := Params.mk (if pyTruthy code then code else none)
      (if pyTruthy date then date else none) none
    if cfg.api_key = "" then
      (PyResult.err (PyErr.valueError "JQUANTS_API_KEY is not set."), [])
    else
      let r := get_with_retry cfg T jitter 0 params
      match r.1 with
      | Except.error e => (PyResult.err e, r.2)
      | Except.ok none =>
        (PyResult.err (PyErr.requestException "Failed to fetch statements after retries."), r.2)
      | Except.ok (some p) =>
        let rest := fetchAllAux cfg T jitter
          "Failed to fetch statements pagination after retries." fuel 1 params p p.data
        match rest.1 with
        | PyResult.ok xs => (PyResult.ok (SValue.vdict [("data", xs)]), r.2 ++ rest.2)
        | PyResult.err e => (PyResult.err e, r.2 ++ rest.2)
        | PyResult.diverge => (PyResult.diverge, r.2 ++ rest.2)

/-- A server that answers the k-th page call with the k-th payload of `ps`
(first attempt, regardless of parameters) and fails every attempt of every
later call. -/
def pureT (ps : List (Payload α)) : Nat → Params → Nat → Resp α :=
  fun i _ _ =>
    match ps[i]? with
    | some p => Resp.success p
    | none => Resp.error

/-- True exactly when an aggregator outcome is a raised `RequestException`. -/
def isRequestFailure : PyResult β → Bool
  | PyResult.err (PyErr.requestException _) => true
  | _ => false

/-- `chainB p rest` says the pages `p :: rest` form one complete pagination
chain: every page except the last carries a cursor, the last does not. -/
def chainB : Payload α → List (Payload α) → Bool
  | p, [] => !hasCursor p
  | p, q :: qs => hasCursor p && chainB q qs

/-- The bound of the source's `@lru_cache(maxsize=8192)`. -/
def lruMaxsize : Nat := 8192

/-- Look a key up in a recency-ordered (most-recent-first) cache. -/
def lruLookup [DecidableEq κ] (st : List (κ × ν)) (k : κ) : Option ν :=
  match st.find? (fun e => decide (e.1 = k)) with
  | some e => some e.2
  | none => none

/-- Explicit model of one call through `functools.lru_cache(maxsize=8192)`:
on a hit the cached value is returned (the underlying function is not called)
and the entry moves to the front; on a miss the underlying function runs, the
result is inserted at the front and the least-recently-used entry beyond the
bound is evicted.  The boolean reports whether the underlying function ran. -/
def cachedCall [DecidableEq κ] (f : κ → ν) (st : List (κ × ν)) (k : κ) :
    ν × List (κ × ν) × Bool :=
  match lruLookup st k with
  | some v => (v, (k, v) :: st.eraseP (fun e => decide (e.1 = k)), false)
  | none =>
    let v := f k
    (v, ((k, v) :: st).take lruMaxsize, true)

/-- The cached entry point the caller sees: `fetch_equities_master` behind the
`lru_cache`, keyed by the `(code, date)` argument pair. -/
def fetch_equities_master_cached (cfg : Config) (T : Nat → Params → Nat → Resp α)
    (jitter : Nat → ℚ) (today : Date)
    (st : List ((String × Option String) × (Except PyErr (Option α) × List Ev)))
    (code : String) (date : Option String) :
    (Except PyErr (Option α) × List Ev) ×
      List ((String × Option String) × (Except PyErr (Option α) × List Ev)) × Bool :=
  cachedCall (fun k => fetch_equities_master cfg T jitter today k.1 k.2) st (code, date)

lemma getLoop_fst_none_of_error (cfg : Config) (i : Nat) (params : Params)
    (tr : Nat → Resp α) (jitter : Nat → ℚ) (h : ∀ a, tr a = Resp.error) :
    ∀ fuel attempt, (getLoop cfg i params tr jitter fuel attempt).1 = none := by
  intro fuel
  induction fuel with
  | zero => intro attempt; rfl
  | succ f ih =>
    intro attempt
    simp only [getLoop, h attempt]
    split
    · rfl
    · exact ih (attempt + 1)

lemma getLoop_fst_none_of_rateLimited (cfg : Config) (i : Nat) (params : Params)
    (tr : Nat → Resp α) (jitter : Nat → ℚ) (raf : Nat → Option ℚ)
    (h : ∀ a, tr a = Resp.rateLimited (raf a)) :
    ∀ fuel attempt, (getLoop cfg i params tr jitter fuel attempt).1 = none := by
  intro fuel
  induction fuel with
  | zero => intro attempt; rfl
  | succ f ih =>
    intro attempt
    simp only [getLoop, h attempt]
    exact ih (attempt + 1)

lemma get_with_retry_fst_none_of_error (cfg : Config) (T : Nat → Params → Nat → Resp α)
    (jitter : Nat → ℚ) (i : Nat) (params : Params) (hkey : ¬cfg.api_key = "")
    (h : ∀ a, T i params a = Resp.error) :
    (get_with_retry cfg T jitter i params).1 = Except.ok none := by
  simp only [get_with_retry, if_neg hkey]
  exact congrArg Except.ok (getLoop_fst_none_of_error cfg i params (T i params) jitter h _ _)

lemma get_with_retry_fst_of_success (cfg : Config) (T : Nat → Params → Nat → Resp α)
    (jitter : Nat → ℚ) (i : Nat) (params : Params) (p : Payload α)
    (hkey : ¬cfg.api_key = "") (hmax : 1 ≤ cfg.api_max_retries)
    (h : T i params 0 = Resp.success p) :
    (get_with_retry cfg T jitter i params).1 = Except.ok (some p) := by
  have hne : cfg.api_max_retries.toNat ≠ 0 := by omega
  obtain ⟨f, hf⟩ := Nat.exists_eq_succ_of_ne_zero hne
  simp only [get_with_retry, if_neg hkey, hf, getLoop, h]

lemma get_with_retry_request_mem (cfg : Config) (T : Nat → Params → Nat → Resp α)
    (jitter : Nat → ℚ) (i : Nat) (params : Params)
    (hkey : ¬cfg.api_key = "") (hmax : 1 ≤ cfg.api_max_retries) :
    Ev.request i 0 params ∈ (get_with_retry cfg T jitter i params).2 := by
  have hne : cfg.api_max_retries.toNat ≠ 0 := by omega
  obtain ⟨f, hf⟩ := Nat.exists_eq_succ_of_ne_zero hne
  simp only [get_with_retry, if_neg hkey, hf, getLoop]
  rcases h : T i params 0 with p | ra | _ <;> simp only [h]
  · simp
  · simp
  · split <;> simp

lemma pureT_eq_success (ps : List (Payload α)) (i : Nat) (params : Params) (a : Nat)
    (p : Payload α) (h : ps[i]? = some p) : pureT ps i params a = Resp.success p := by
  simp [pureT, h]

lemma pureT_eq_error (ps : List (Payload α)) (i : Nat) (params : Params) (a : Nat)
    (h : ps[i]? = none) : pureT ps i params a = Resp.error := by
  simp [pureT, h]

lemma fetchAllAux_pure_err (cfg : Config) (jitter : Nat → ℚ) (msg : String)
    (ps : List (Payload α)) (hkey : ¬cfg.api_key = "") (hmax : 1 ≤ cfg.api_max_retries) :
    ∀ fuel i params payload acc, hasCursor payload = true →
      (∀ q ∈ ps.drop i, hasCursor q = true) → ps.length - i < fuel →
      (fetchAllAux cfg (pureT ps) jitter msg fuel i params payload acc).1 =
        PyResult.err (PyErr.requestException msg) := by
  intro fuel
  induction fuel with
  | zero =>
    intro i params payload acc _ _ hlt
    exact absurd hlt (Nat.not_lt_zero _)
  | succ f ih =>
    intro i params payload acc hc hall hlt
    cases hq : ps[i]? with
    | none =>
      have hg := get_with_retry_fst_none_of_error cfg (pureT ps) jitter i
        (Params.mk params.code params.date (some (cursorVal payload))) hkey
        (fun a => pureT_eq_error ps i _ a hq)
      simp only [fetchAllAux, hc, if_true, hg]
    | some q =>
      have hilt : i < ps.length := (List.getElem?_eq_some.mp hq).1
      have hdrop : ps.drop i = q :: ps.drop (i + 1) := by
        obtain ⟨hl, he⟩ := List.getElem?_eq_some.mp hq
        rw [List.drop_eq_getElem_cons hl, he]
      have hg := get_with_retry_fst_of_success cfg (pureT ps) jitter i
        (Params.mk params.code params.date (some (cursorVal payload))) q hkey hmax
        (pureT_eq_success ps i _ 0 q hq)
      simp only [fetchAllAux, hc, if_true, hg]
      apply ih
      · rw [hdrop] at hall
        exact hall q (List.mem_cons_self q _)
      · intro r hr
        exact hall r (by rw [hdrop]; exact List.mem_cons_of_mem q hr)
      · omega

lemma fetchAllAux_pure_ok (cfg : Config) (jitter : Nat → ℚ) (msg : String)
    (ps : List (Payload α)) (hkey : ¬cfg.api_key = "") (hmax : 1 ≤ cfg.api_max_retries) :
    ∀ fuel i params payload acc, chainB payload (ps.drop i) = true →
      ps.length - i ≤ fuel →
      (fetchAllAux cfg (pureT ps) jitter msg fuel i params payload acc).1 =
        PyResult.ok (acc ++ ((ps.drop i).map Payload.data).flatten) := by
  intro fuel
  induction fuel with
  | zero =>
    intro i params payload acc hchain hle
    have hq : ps[i]? = none := by
      rw [List.getElem?_eq_none_iff]
      omega
    have hdrop : ps.drop i = [] := by
      rw [List.getElem?_eq_none_iff] at hq
      exact List.drop_eq_nil_of_le hq
    rw [hdrop] at hchain
    simp only [chainB, Bool.not_eq_true'] at hchain
    simp [fetchAllAux, hchain, hdrop]
  | succ f ih =>
    intro i params payload acc hchain hle
    cases hq : ps[i]? with
    | none =>
      have hdrop : ps.drop i = [] := by
        rw [List.getElem?_eq_none_iff] at hq
        exact List.drop_eq_nil_of_le hq
      rw [hdrop] at hchain
      simp only [chainB, Bool.not_eq_true'] at hchain
      simp [fetchAllAux, hchain, hdrop]
    | some q =>
      have hilt : i < ps.length := (List.getElem?_eq_some.mp hq).1
      have hdrop : ps.drop i = q :: ps.drop (i + 1) := by
        obtain ⟨hl, he⟩ := List.getElem?_eq_some.mp hq
        rw [List.drop_eq_getElem_cons hl, he]
      rw [hdrop] at hchain
      simp only [chainB, Bool.and_eq_true] at hchain
      have hg := get_with_retry_fst_of_success cfg (pureT ps) jitter i
        (Params.mk params.code params.date (some (cursorVal payload))) q hkey hmax
        (pureT_eq_success ps i _ 0 q hq)
      simp only [fetchAllAux, hchain.1, if_true, hg]
      rw [ih (i + 1) _ q (acc ++ q.data) hchain.2 (by omega)]
      rw [hdrop]
      simp

/-- Claim C1: after the retry budget is exhausted without a successful
response, the single-record lookup `fetch_equities_master` returns absence
(`Except.ok none`, not an error), while `fetch_equities_master_all` and
`fetch_statements` raise a `RequestException` on any page's failure — here
the server serves the all-cursor-bearing pages `ps` and then fails every
attempt — and never return a truncated list of the records already fetched. -/
theorem retry_exhaustion_asymmetry {α : Type} (cfg : Config) (jitter : Nat → ℚ)
    (fuel : Nat) (today : Date) (code : String) (scode sdate : Option String)
    (date date2 : Option String) (ps : List (Payload α))
    (hkey : ¬cfg.api_key = "") (hmax : 1 ≤ cfg.api_max_retries)
    (hcode : ¬code = "") (hval : pyTruthy scode = true)
    (hcur : ∀ p ∈ ps, hasCursor p = true) (hfuel : ps.length ≤ fuel) :
    (fetch_equities_master cfg (pureT ([] : List (Payload α))) jitter today code date).1 =
      Except.ok none
    ∧ isRequestFailure (fetch_equities_master_all cfg (pureT ps) jitter fuel today date2).1 = true
    ∧ isRequestFailure (fetch_statements cfg (pureT ps) jitter fuel scode sdate).1 = true := by
  refine ⟨?_, ?_, ?_⟩
  · have hg := get_with_retry_fst_none_of_error cfg (pureT ([] : List (Payload α))) jitter 0
      (Params.mk (some code) (some (normalize_date cfg today date)) none) hkey
      (fun a => pureT_eq_error [] 0 _ a rfl)
    simp only [fetch_equities_master, if_neg hcode, hg]
  · cases ps with
    | nil =>
      have hg := get_with_retry_fst_none_of_error cfg (pureT ([] : List (Payload α))) jitter 0
        (Params.mk none (some (normalize_date cfg today date2)) none) hkey
        (fun a => pureT_eq_error [] 0 _ a rfl)
      simp only [fetch_equities_master_all, hg, isRequestFailure]
    | cons p rest =>
      have hg := get_with_retry_fst_of_success cfg (pureT (p :: rest)) jitter 0
        (Params.mk none (some (normalize_date cfg today date2)) none) p hkey hmax
        (pureT_eq_success (p :: rest) 0 _ 0 p (by simp))
      have haux := fetchAllAux_pure_err cfg jitter
        "Failed to fetch equities master pagination after retries." (p :: rest) hkey hmax
        fuel 1 (Params.mk none (some (normalize_date cfg today date2)) none) p p.data
        (hcur p (List.mem_cons_self p rest))
        (fun q hq => hcur q (by simpa using List.mem_cons_of_mem p (by simpa using hq)))
        (by simp at hfuel ⊢; omega)
      simp only [fetch_equities_master_all, hg, haux, isRequestFailure]
  · cases ps with
    | nil =>
      have hg := get_with_retry_fst_none_of_error cfg (pureT ([] : List (Payload α))) jitter 0
        (Params.mk (if pyTruthy scode then scode else none)
          (if pyTruthy sdate then sdate else none) none) hkey
        (fun a => pureT_eq_error [] 0 _ a rfl)
      have hcond : (!pyTruthy scode && !pyTruthy sdate) = false := by rw [hval]; rfl
      simp only [fetch_statements, hcond, Bool.false_eq_true, if_false, if_neg hkey, hg,
        isRequestFailure]
    | cons p rest =>
      have hg := get_with_retry_fst_of_success cfg (pureT (p :: rest)) jitter 0
        (Params.mk (if pyTruthy scode then scode else none)
          (if pyTruthy sdate then sdate else none) none) p hkey hmax
        (pureT_eq_success (p :: rest) 0 _ 0 p (by simp))
      have haux := fetchAllAux_pure_err cfg jitter
        "Failed to fetch statements pagination after retries." (p :: rest) hkey hmax
        fuel 1 (Params.mk (if pyTruthy scode then scode else none)
          (if pyTruthy sdate then sdate else none) none) p p.data
        (hcur p (List.mem_cons_self p rest))
        (fun q hq => hcur q (by simpa using List.mem_cons_of_mem p (by simpa using hq)))
        (by simp at hfuel ⊢; omega)
      have hcond : (!pyTruthy scode && !pyTruthy sdate) = false := by rw [hval]; rfl
      simp only [fetch_statements, hcond, Bool.false_eq_true, if_false, if_neg hkey, hg, haux,
        isRequestFailure]

/-- Witness for C1 at a concrete configuration, one cursor-bearing page and a
server that then fails every attempt. -/
theorem retry_exhaustion_asymmetry_witness :
    (fetch_equities_master (Config.mk "key" "https://api.jquants.com/v2" "" 0 6 1)
        (pureT ([] : List (Payload Nat))) (fun _ => 0) (Date.mk 2024 1 5) "7203" none).1 =
      Except.ok none
    ∧ isRequestFailure (fetch_equities_master_all
        (Config.mk "key" "https://api.jquants.com/v2" "" 0 6 1)
        (pureT [Payload.mk [(1 : Nat)] (some "next") none]) (fun _ => 0) 1
        (Date.mk 2024 1 5) none).1 = true
    ∧ isRequestFailure (fetch_statements
        (Config.mk "key" "https://api.jquants.com/v2" "" 0 6 1)
        (pureT [Payload.mk [(1 : Nat)] (some "next") none]) (fun _ => 0) 1
        (some "7203") none).1 = true :=
  retry_exhaustion_asymmetry (Config.mk "key" "https://api.jquants.com/v2" "" 0 6 1)
    (fun _ => 0) 1 (Date.mk 2024 1 5) "7203" (some "7203") none none none
    [Payload.mk [(1 : Nat)] (some "next") none]
    (by decide) (by decide) (by decide) (by decide) (by decide) (by decide)

/-- Claim C2: for every complete chain of successfully fetched pages
(`chainB`: every page but the last carries a cursor, the last does not), both
aggregators return exactly the concatenation of the per-page `data` arrays in
page-arrival order, and the aggregated record count is the sum of the
per-page record counts. -/
theorem pagination_concatenation {α : Type} (cfg : Config) (jitter : Nat → ℚ)
    (fuel : Nat) (today : Date) (scode sdate : Option String) (date : Option String)
    (p : Payload α) (rest : List (Payload α))
    (hkey : ¬cfg.api_key = "") (hmax : 1 ≤ cfg.api_max_retries)
    (hval : pyTruthy scode = true)
    (hchain : chainB p rest = true) (hfuel : rest.length ≤ fuel) :
    (fetch_equities_master_all cfg (pureT (p :: rest)) jitter fuel today date).1 =
      PyResult.ok (((p :: rest).map Payload.data).flatten)
    ∧ (fetch_statements cfg (pureT (p :: rest)) jitter fuel scode sdate).1 =
      PyResult.ok (SValue.vdict [("data", ((p :: rest).map Payload.data).flatten)])
    ∧ (((p :: rest).map Payload.data).flatten).length =
      (((p :: rest).map Payload.data).map List.length).sum := by
  refine ⟨?_, ?_, ?_⟩
  · have hg := get_with_retry_fst_of_success cfg (pureT (p :: rest)) jitter 0
      (Params.mk none (some (normalize_date cfg today date)) none) p hkey hmax
      (pureT_eq_success (p :: rest) 0 _ 0 p (by simp))
    have haux := fetchAllAux_pure_ok cfg jitter
      "Failed to fetch equities master pagination after retries." (p :: rest) hkey hmax
      fuel 1 (Params.mk none (some (normalize_date cfg today date)) none) p p.data
      (by simpa using hchain) (by simp; omega)
    simp only [fetch_equities_master_all, hg, haux]
    simp
  · have hg := get_with_retry_fst_of_success cfg (pureT (p :: rest)) jitter 0
      (Params.mk (if pyTruthy scode then scode else none)
        (if pyTruthy sdate then sdate else none) none) p hkey hmax
      (pureT_eq_success (p :: rest) 0 _ 0 p (by simp))
    have haux := fetchAllAux_pure_ok cfg jitter
      "Failed to fetch statements pagination after retries." (p :: rest) hkey hmax
      fuel 1 (Params.mk (if pyTruthy scode then scode else none)
        (if pyTruthy sdate then sdate else none) none) p p.data
      (by simpa using hchain) (by simp; omega)
    have hcond : (!pyTruthy scode && !pyTruthy sdate) = false := by rw [hval]; rfl
    simp only [fetch_statements, hcond, Bool.false_eq_true, if_false, if_neg hkey, hg, haux]
    simp
  · exact (List.length_flatten _).symm ▸ rfl

/-- Witness for C2 with two concrete pages. -/
theorem pagination_concatenation_witness :
    (fetch_equities_master_all (Config.mk "key" "https://api.jquants.com/v2" "" 0 6 1)
        (pureT [Payload.mk [(1 : Nat), 2] (some "k1") none, Payload.mk [3] none none])
        (fun _ => 0) 1 (Date.mk 2024 1 5) none).1 =
      PyResult.ok (([Payload.mk [(1 : Nat), 2] (some "k1") none,
        Payload.mk [3] none none].map Payload.data).flatten)
    ∧ (fetch_statements (Config.mk "key" "https://api.jquants.com/v2" "" 0 6 1)
        (pureT [Payload.mk [(1 : Nat), 2] (some "k1") none, Payload.mk [3] none none])
        (fun _ => 0) 1 (some "7203") none).1 =
      PyResult.ok (SValue.vdict [("data", ([Payload.mk [(1 : Nat), 2] (some "k1") none,
        Payload.mk [3] none none].map Payload.data).flatten)])
    ∧ (([Payload.mk [(1 : Nat), 2] (some "k1") none,
        Payload.mk [3] none none].map Payload.data).flatten).length =
      (([Payload.mk [(1 : Nat), 2] (some "k1") none,
        Payload.mk [3] none none].map Payload.data).map List.length).sum :=
  pagination_concatenation (Config.mk "key" "https://api.jquants.com/v2" "" 0 6 1)
    (fun _ => 0) 1 (Date.mk 2024 1 5) (some "7203") none none
    (Payload.mk [(1 : Nat), 2] (some "k1") none) [Payload.mk [3] none none]
    (by decide) (by decide) (by decide) (by decide) (by decide)

/-- Claim C3: the pagination loop stops exactly when the current payload lacks
a cursor under both spellings (the loop guard is the disjunction of the two
key-presence checks); when either spelling is present, the cursor value
computed by the source's Python `or` is placed into the next request's
parameters under the canonical key `pagination_key` and another page request
is issued. -/
theorem pagination_cursor_protocol {α : Type} (cfg : Config)
    (T : Nat → Params → Nat → Resp α) (jitter : Nat → ℚ) (msg : String)
    (fuel i : Nat) (params : Params) (payload : Payload α) (acc : List α)
    (hkey : ¬cfg.api_key = "") (hmax : 1 ≤ cfg.api_max_retries) :
    hasCursor payload = (payload.pagination_key.isSome || payload.paginationKey.isSome)
    ∧ (hasCursor payload = false →
        fetchAllAux cfg T jitter msg fuel i params payload acc = (PyResult.ok acc, []))
    ∧ (hasCursor payload = true →
        Ev.request i 0 (Params.mk params.code params.date (some (cursorVal payload))) ∈
          (fetchAllAux cfg T jitter msg (fuel + 1) i params payload acc).2) := by
  refine ⟨rfl, ?_, ?_⟩
  · intro h
    cases fuel <;> simp [fetchAllAux, h]
  · intro h
    have hreq := get_with_retry_request_mem cfg T jitter i
      (Params.mk params.code params.date (some (cursorVal payload))) hkey hmax
    simp only [fetchAllAux, h, if_true]
    cases hg : (get_with_retry cfg T jitter i
        (Params.mk params.code params.date (some (cursorVal payload)))).1 with
    | error e => simp only [hg]; exact hreq
    | ok o =>
      cases o with
      | none => simp only [hg]; exact hreq
      | some p2 =>
        simp only [hg, List.mem_append]
        exact Or.inl hreq

/-- Witness for C3: a cursor-free payload stops the loop with no request, and
a cursor-bearing payload triggers a request carrying the cursor under
`pagination_key`. -/
theorem pagination_cursor_protocol_witness :
    fetchAllAux (Config.mk "key" "https://api.jquants.com/v2" "" 0 6 1)
        (pureT ([] : List (Payload Nat))) (fun _ => 0) "m" 0 0
        (Params.mk none none none) (Payload.mk [(1 : Nat)] none none) [1] =
      (PyResult.ok [1], [])
    ∧ Ev.request 0 0 (Params.mk none none
        (some (cursorVal (Payload.mk ([] : List Nat) (some "k") none)))) ∈
      (fetchAllAux (Config.mk "key" "https://api.jquants.com/v2" "" 0 6 1)
        (pureT ([] : List (Payload Nat))) (fun _ => 0) "m" 1 0
        (Params.mk none none none) (Payload.mk ([] : List Nat) (some "k") none) []).2 :=
  ⟨(pagination_cursor_protocol (Config.mk "key" "https://api.jquants.com/v2" "" 0 6 1)
      (pureT ([] : List (Payload Nat))) (fun _ => 0) "m" 0 0
      (Params.mk none none none) (Payload.mk [(1 : Nat)] none none) [1]
      (by decide) (by decide)).2.1 (by decide),
   (pagination_cursor_protocol (Config.mk "key" "https://api.jquants.com/v2" "" 0 6 1)
      (pureT ([] : List (Payload Nat))) (fun _ => 0) "m" 0 0
      (Params.mk none none none) (Payload.mk ([] : List Nat) (some "k") none) []
      (by decide) (by decide)).2.2 (by decide)⟩

/-- Claim C4: an HTTP 429 response is retried rather than terminal — the next
iteration runs with the attempt index advanced by one, so a 429 consumes one
unit of the same bounded budget — the sleep before the retry is the parsed
Retry-After header value when present and the full-jitter exponential backoff
otherwise, and a run of consecutive 429 responses across the whole budget
ends the call with the failure sentinel. -/
theorem rate_limit_handling {α : Type} (cfg : Config) (i : Nat) (params : Params)
    (tr : Nat → Resp α) (T : Nat → Params → Nat → Resp α) (jitter : Nat → ℚ)
    (fuel attempt : Nat) (ra : Option ℚ) (raf : Nat → Option ℚ)
    (h429 : tr attempt = Resp.rateLimited ra)
    (hkey : ¬cfg.api_key = "") (hall : ∀ a, T i params a = Resp.rateLimited (raf a)) :
    (getLoop cfg i params tr jitter (fuel + 1) attempt).1 =
      (getLoop cfg i params tr jitter fuel (attempt + 1)).1
    ∧ Ev.rateLimitSleep attempt
        (match ra with
         | some r => r
         | none => cfg.api_backoff_base * (2 : ℚ) ^ attempt + jitter attempt) ∈
        (getLoop cfg i params tr jitter (fuel + 1) attempt).2
    ∧ (get_with_retry cfg T jitter i params).1 =
        Except.ok (none : Option (Payload α)) := by
  refine ⟨?_, ?_, ?_⟩
  · simp only [getLoop, h429]
  · simp only [getLoop, h429, List.mem_append]
    cases ra <;> simp
  · simp only [get_with_retry, if_neg hkey]
    exact congrArg Except.ok
      (getLoop_fst_none_of_rateLimited cfg i params (T i params) jitter raf hall _ _)

/-- Witness for C4: a 429 carrying Retry-After 2 at attempt 0, and a server
answering 429 on every attempt. -/
theorem rate_limit_handling_witness :
    (getLoop (Config.mk "key" "https://api.jquants.com/v2" "" 0 6 1) 0
        (Params.mk none none none)
        (fun _ => Resp.rateLimited (α := Nat) (some 2)) (fun _ => 0) 3 0).1 =
      (getLoop (Config.mk "key" "https://api.jquants.com/v2" "" 0 6 1) 0
        (Params.mk none none none)
        (fun _ => Resp.rateLimited (α := Nat) (some 2)) (fun _ => 0) 2 1).1
    ∧ Ev.rateLimitSleep 0 2 ∈
      (getLoop (Config.mk "key" "https://api.jquants.com/v2" "" 0 6 1) 0
        (Params.mk none none none)
        (fun _ => Resp.rateLimited (α := Nat) (some 2)) (fun _ => 0) 3 0).2
    ∧ (get_with_retry (Config.mk "key" "https://api.jquants.com/v2" "" 0 6 1)
        (fun _ _ _ => Resp.rateLimited (α := Nat) none) (fun _ => 0) 0
        (Params.mk none none none)).1 = Except.ok none :=
  rate_limit_handling (Config.mk "key" "https://api.jquants.com/v2" "" 0 6 1) 0
    (Params.mk none none none) (fun _ => Resp.rateLimited (some 2))
    (fun _ _ _ => Resp.rateLimited none) (fun _ => 0) 2 0 (some 2) (fun _ => none)
    rfl (by decide) (fun _ => rfl)

/-- Claim C5: `fetch_statements` with both code and date falsy raises the
validation `ValueError` with an empty event log — before any network request,
sleep or retry, independent of configuration and server behaviour. -/
theorem statements_validation_error {α : Type} (cfg : Config)
    (T : Nat → Params → Nat → Resp α) (jitter : Nat → ℚ) (fuel : Nat)
    (code date : Option String)
    (hc : pyTruthy code = false) (hd : pyTruthy date = false) :
    fetch_statements cfg T jitter fuel code date =
      (PyResult.err (PyErr.valueError "Either code or date must be provided."), []) := by
  simp [fetch_statements, hc, hd]

/-- Witness for C5: no code, no date, no API key configured. -/
theorem statements_validation_error_witness :
    fetch_statements (Config.mk "" "https://api.jquants.com/v2" "" 0 6 1)
        (pureT ([] : List (Payload Nat))) (fun _ => 0) 5 none none =
      (PyResult.err (PyErr.valueError "Either code or date must be provided."), []) :=
  statements_validation_error (Config.mk "" "https://api.jquants.com/v2" "" 0 6 1)
    (pureT ([] : List (Payload Nat))) (fun _ => 0) 5 none none (by decide) (by decide)

/-- Counterexample to C6 as stated: on a successful one-page run the value
returned by `fetch_statements` is the dict `{"data": [0]}` wrapping the
aggregated records, and there is no record list that the call returns as a
bare sequence. -/
theorem statements_wraps_dict_counterexample :
    (fetch_statements (Config.mk "key" "https://api.jquants.com/v2" "" 0 1 1)
        (pureT [Payload.mk [(0 : Nat)] none none]) (fun _ => 0) 0 (some "7203") none).1 =
      PyResult.ok (SValue.vdict [("data", [0])])
    ∧ ¬∃ xs : List Nat,
      (fetch_statements (Config.mk "key" "https://api.jquants.com/v2" "" 0 1 1)
          (pureT [Payload.mk [(0 : Nat)] none none]) (fun _ => 0) 0 (some "7203") none).1 =
        PyResult.ok (SValue.vlist xs) := by
  have h : (fetch_statements (Config.mk "key" "https://api.jquants.com/v2" "" 0 1 1)
      (pureT [Payload.mk [(0 : Nat)] none none]) (fun _ => 0) 0 (some "7203") none).1 =
      PyResult.ok (SValue.vdict [("data", [0])]) := by decide
  refine ⟨h, ?_⟩
  rintro ⟨xs, hx⟩
  rw [h] at hx
  exact absurd (PyResult.ok.inj hx) (by simp)

/-- Claim C6 (amended): on success, `fetch_statements` returns the aggregated
record list wrapped in a dict under the key `data` (the source returns
`{"data": data}`), not the bare list. -/
theorem statements_returns_wrapped_data {α : Type} (cfg : Config) (jitter : Nat → ℚ)
    (fuel : Nat) (scode sdate : Option String) (p : Payload α) (rest : List (Payload α))
    (hkey : ¬cfg.api_key = "") (hmax : 1 ≤ cfg.api_max_retries)
    (hval : pyTruthy scode = true)
    (hchain : chainB p rest = true) (hfuel : rest.length ≤ fuel) :
    (fetch_statements cfg (pureT (p :: rest)) jitter fuel scode sdate).1 =
      PyResult.ok (SValue.vdict [("data", ((p :: rest).map Payload.data).flatten)]) := by
  have hg := get_with_retry_fst_of_success cfg (pureT (p :: rest)) jitter 0
    (Params.mk (if pyTruthy scode then scode else none)
      (if pyTruthy sdate then sdate else none) none) p hkey hmax
    (pureT_eq_success (p :: rest) 0 _ 0 p (by simp))
  have haux := fetchAllAux_pure_ok cfg jitter
    "Failed to fetch statements pagination after retries." (p :: rest) hkey hmax
    fuel 1 (Params.mk (if pyTruthy scode then scode else none)
      (if pyTruthy sdate then sdate else none) none) p p.data
    (by simpa using hchain) (by simp; omega)
  have hcond : (!pyTruthy scode && !pyTruthy sdate) = false := by rw [hval]; rfl
  simp only [fetch_statements, hcond, Bool.false_eq_true, if_false, if_neg hkey, hg, haux]
  simp

/-- Witness for the amended C6 with a two-page chain. -/
theorem statements_returns_wrapped_data_witness :
    (fetch_statements (Config.mk "key" "https://api.jquants.com/v2" "" 0 6 1)
        (pureT [Payload.mk [(7 : Nat)] (some "k1") none, Payload.mk [8, 9] none none])
        (fun _ => 0) 1 (some "7203") none).1 =
      PyResult.ok (SValue.vdict [("data", ([Payload.mk [(7 : Nat)] (some "k1") none,
        Payload.mk [8, 9] none none].map Payload.data).flatten)]) :=
  statements_returns_wrapped_data (Config.mk "key" "https://api.jquants.com/v2" "" 0 6 1)
    (fun _ => 0) 1 (some "7203") none (Payload.mk [(7 : Nat)] (some "k1") none)
    [Payload.mk [8, 9] none none] (by decide) (by decide) (by decide) (by decide) (by decide)

/-- Claim C7: with the override unset, `"2024-01-05"` normalizes to
`"20240105"` and a missing date normalizes to today's date in `YYYYMMDD`;
a non-empty override takes precedence over both, for every input date. -/
theorem normalize_date_behaviour (cfg : Config) (today : Date) :
    (cfg.master_date_override = "" →
      normalize_date cfg today (some "2024-01-05") = "20240105")
    ∧ (cfg.master_date_override = "" →
      normalize_date cfg today none = formatYYYYMMDD today)
    ∧ (¬cfg.master_date_override = "" →
      ∀ d, normalize_date cfg today d = cfg.master_date_override) := by
  refine ⟨?_, ?_, ?_⟩
  · intro h
    have h1 : ("" != "") = false := by decide
    have h2 : ("2024-01-05" != "") = true := by decide
    simp only [normalize_date, h, h1, h2, Bool.false_eq_true, if_false, if_true]
    decide
  · intro h
    simp [normalize_date, h]
  · intro h d
    have hb : (cfg.master_date_override != "") = true := by
      simpa using h
    simp only [normalize_date, hb, if_true]

/-- Witness for C7: normalization at concrete configurations, with the
override unset and with the override set to "20991231". -/
theorem normalize_date_behaviour_witness :
    normalize_date (Config.mk "key" "https://api.jquants.com/v2" "" 0 6 1)
      (Date.mk 2024 1 5) (some "2024-01-05") = "20240105"
    ∧ normalize_date (Config.mk "key" "https://api.jquants.com/v2" "" 0 6 1)
      (Date.mk 2024 1 5) none = formatYYYYMMDD (Date.mk 2024 1 5)
    ∧ normalize_date (Config.mk "key" "https://api.jquants.com/v2" "20991231" 0 6 1)
      (Date.mk 2024 1 5) (some "2024-01-05") =
      (Config.mk "key" "https://api.jquants.com/v2" "20991231" 0 6 1).master_date_override :=
  ⟨(normalize_date_behaviour (Config.mk "key" "https://api.jquants.com/v2" "" 0 6 1)
      (Date.mk 2024 1 5)).1 (by decide),
   (normalize_date_behaviour (Config.mk "key" "https://api.jquants.com/v2" "" 0 6 1)
      (Date.mk 2024 1 5)).2.1 (by decide),
   (normalize_date_behaviour (Config.mk "key" "https://api.jquants.com/v2" "20991231" 0 6 1)
      (Date.mk 2024 1 5)).2.2 (by decide) (some "2024-01-05")⟩

lemma lruLookup_cons_self [DecidableEq κ] (k : κ) (v : ν) (t : List (κ × ν)) :
    lruLookup ((k, v) :: t) k = some v := by
  simp [lruLookup, List.find?_cons_of_pos]

lemma cachedCall_head [DecidableEq κ] (f : κ → ν) (st : List (κ × ν)) (k : κ) :
    ∃ t, (cachedCall f st k).2.1 = (k, (cachedCall f st k).1) :: t := by
  cases h : lruLookup st k with
  | some v =>
    refine ⟨st.eraseP (fun e => decide (e.1 = k)), ?_⟩
    simp [cachedCall, h]
  | none =>
    refine ⟨st.take 8191, ?_⟩
    simp only [cachedCall, h]
    rw [show lruMaxsize = 8191 + 1 by decide, List.take_succ_cons]

lemma cachedCall_repeat [DecidableEq κ] (f g : κ → ν) (st : List (κ × ν)) (k : κ) :
    (cachedCall g (cachedCall f st k).2.1 k).1 = (cachedCall f st k).1
    ∧ (cachedCall g (cachedCall f st k).2.1 k).2.2 = false := by
  obtain ⟨t, ht⟩ := cachedCall_head f st k
  rw [ht]
  constructor <;> simp [cachedCall, lruLookup_cons_self]

lemma lruLookup_replicate_ne [DecidableEq κ] (n : Nat) (a : κ) (b : ν) (k : κ)
    (h : ¬a = k) : lruLookup (List.replicate n (a, b)) k = none := by
  induction n with
  | zero => rfl
  | succ m ih =>
    simp only [List.replicate, lruLookup, List.find?]
    have hd : decide (a = k) = false := by simp [h]
    simp only [hd]
    simpa [lruLookup] using ih

/-- Claim C8: repeating a cached master-lookup call with identical `(code,
date)` arguments returns the identical result and does not run the underlying
fetch again (the boolean component reports whether the underlying function
ran); the cache never exceeds `lruMaxsize = 8192` entries; and on a miss at
capacity the least-recently-used (last) entry is evicted while a hit returns
the stored value without calling the underlying function. -/
theorem lru_cached_lookup {κ ν α : Type} [DecidableEq κ] (f : κ → ν)
    (st stE : List (κ × ν)) (k kE : κ) (cfg : Config)
    (T : Nat → Params → Nat → Resp α) (jitter : Nat → ℚ) (today : Date)
    (st2 : List ((String × Option String) × (Except PyErr (Option α) × List Ev)))
    (code : String) (date : Option String) :
    ((fetch_equities_master_cached cfg T jitter today
        (fetch_equities_master_cached cfg T jitter today st2 code date).2.1 code date).1 =
      (fetch_equities_master_cached cfg T jitter today st2 code date).1
      ∧ (fetch_equities_master_cached cfg T jitter today
        (fetch_equities_master_cached cfg T jitter today st2 code date).2.1 code date).2.2 =
        false)
    ∧ (st.length ≤ lruMaxsize → ((cachedCall f st k).2.1).length ≤ lruMaxsize)
    ∧ (lruLookup stE kE = none → stE.length = lruMaxsize →
        (cachedCall f stE kE).2.1 = (kE, f kE) :: stE.dropLast)
    ∧ (∀ v, lruLookup st k = some v →
        cachedCall f st k = (v, (k, v) :: st.eraseP (fun e => decide (e.1 = k)), false)) := by
  refine ⟨?_, ?_, ?_, ?_⟩
  · exact cachedCall_repeat _ _ st2 (code, date)
  · intro hle
    cases h : lruLookup st k with
    | some v =>
      cases hh : st.find? (fun e => decide (e.1 = k)) with
      | none => simp [lruLookup, hh] at h
      | some e =>
        have hmem := List.mem_of_find?_eq_some hh
        have hpe := List.find?_some hh
        have hlen := List.length_eraseP_add_one (p := fun x => decide (x.1 = k)) hmem hpe
        simp only [cachedCall, h, List.length_cons]
        omega
    | none =>
      simp only [cachedCall, h, List.length_take, List.length_cons]
      omega
  · intro hnone hlen
    simp only [cachedCall, hnone]
    rw [show lruMaxsize = 8191 + 1 by decide, List.take_succ_cons, List.dropLast_eq_take, hlen]
    rw [show lruMaxsize - 1 = 8191 by decide]
  · intro v hv
    simp [cachedCall, hv]

/-- Witness for C8: a repeated cached lookup, the size bound on a small
cache, eviction of the oldest entry at capacity, and a cache hit. -/
theorem lru_cached_lookup_witness :
    ((fetch_equities_master_cached (Config.mk "key" "https://api.jquants.com/v2" "" 0 6 1)
        (pureT ([] : List (Payload Nat))) (fun _ => 0) (Date.mk 2024 1 5)
        (fetch_equities_master_cached (Config.mk "key" "https://api.jquants.com/v2" "" 0 6 1)
          (pureT ([] : List (Payload Nat))) (fun _ => 0) (Date.mk 2024 1 5)
          [] "7203" none).2.1 "7203" none).1 =
      (fetch_equities_master_cached (Config.mk "key" "https://api.jquants.com/v2" "" 0 6 1)
        (pureT ([] : List (Payload Nat))) (fun _ => 0) (Date.mk 2024 1 5)
        [] "7203" none).1
      ∧ (fetch_equities_master_cached (Config.mk "key" "https://api.jquants.com/v2" "" 0 6 1)
        (pureT ([] : List (Payload Nat))) (fun _ => 0) (Date.mk 2024 1 5)
        (fetch_equities_master_cached (Config.mk "key" "https://api.jquants.com/v2" "" 0 6 1)
          (pureT ([] : List (Payload Nat))) (fun _ => 0) (Date.mk 2024 1 5)
          [] "7203" none).2.1 "7203" none).2.2 = false)
    ∧ ((cachedCall (fun _ => (0 : Nat)) [((0 : Nat), (5 : Nat))] 0).2.1).length ≤ lruMaxsize
    ∧ (cachedCall (fun _ => (0 : Nat)) (List.replicate lruMaxsize ((1 : Nat), (2 : Nat))) 0).2.1 =
      ((0 : Nat), (fun _ => (0 : Nat)) 0) ::
        (List.replicate lruMaxsize ((1 : Nat), (2 : Nat))).dropLast
    ∧ cachedCall (fun _ => (0 : Nat)) [((0 : Nat), (5 : Nat))] 0 =
      (5, ((0 : Nat), (5 : Nat)) ::
        [((0 : Nat), (5 : Nat))].eraseP (fun e => decide (e.1 = 0)), false) := by
  have H := lru_cached_lookup (fun _ => (0 : Nat)) [((0 : Nat), (5 : Nat))]
    (List.replicate lruMaxsize ((1 : Nat), (2 : Nat))) 0 0
    (Config.mk "key" "https://api.jquants.com/v2" "" 0 6 1)
    (pureT ([] : List (Payload Nat))) (fun _ => 0) (Date.mk 2024 1 5) [] "7203" none
  exact ⟨H.1, H.2.1 (by decide),
    H.2.2.1 (lruLookup_replicate_ne lruMaxsize 1 2 0 (by decide)) (by simp),
    H.2.2.2 5 (by decide)⟩

/-- Claim C9: a falsy (empty) code makes `fetch_equities_master` return
`None` with an empty event log — no request, no sleep, no retry-budget use —
for every configuration, even one with no API key set. -/
theorem master_falsy_code_short_circuit {α : Type} (cfg : Config)
    (T : Nat → Params → Nat → Resp α) (jitter : Nat → ℚ) (today : Date)
    (date : Option String) :
    fetch_equities_master cfg T jitter today "" date = (Except.ok none, []) := by
  rfl

/-- Claim C10: with a zero-or-negative retry budget, `_get_with_retry`
returns the failure sentinel with an empty event log (no request issued), so
both aggregators raise their first-page `RequestException` and the single
lookup returns absence. -/
theorem zero_retry_budget {α : Type} (cfg : Config) (T : Nat → Params → Nat → Resp α)
    (jitter : Nat → ℚ) (fuel : Nat) (today : Date) (code : String)
    (scode sdate date date2 : Option String) (i : Nat) (params : Params)
    (hkey : ¬cfg.api_key = "") (hmax : cfg.api_max_retries ≤ 0)
    (hcode : ¬code = "") (hval : pyTruthy scode = true) :
    get_with_retry cfg T jitter i params = (Except.ok (none : Option (Payload α)), [])
    ∧ (fetch_equities_master_all cfg T jitter fuel today date2).1 =
        PyResult.err (PyErr.requestException "Failed to fetch equities master after retries.")
    ∧ (fetch_statements cfg T jitter fuel scode sdate).1 =
        PyResult.err (PyErr.requestException "Failed to fetch statements after retries.")
    ∧ (fetch_equities_master cfg T jitter today code date).1 = Except.ok none := by
  have h0 : cfg.api_max_retries.toNat = 0 := by omega
  have hg : ∀ j q, get_with_retry cfg T jitter j q =
      (Except.ok (none : Option (Payload α)), []) := by
    intro j q
    simp only [get_with_retry, if_neg hkey, h0, getLoop]
  refine ⟨hg i params, ?_, ?_, ?_⟩
  · simp only [fetch_equities_master_all, hg]
  · have hcond : (!pyTruthy scode && !pyTruthy sdate) = false := by rw [hval]; rfl
    simp only [fetch_statements, hcond, Bool.false_eq_true, if_false, if_neg hkey, hg]
  · simp only [fetch_equities_master, if_neg hcode, hg]

/-- Witness for C10 at a configured retry count of zero. -/
theorem zero_retry_budget_witness :
    get_with_retry (Config.mk "key" "https://api.jquants.com/v2" "" 0 0 1)
      (pureT ([] : List (Payload Nat))) (fun _ => 0) 0 (Params.mk none none none) =
      (Except.ok none, [])
    ∧ (fetch_equities_master_all (Config.mk "key" "https://api.jquants.com/v2" "" 0 0 1)
        (pureT ([] : List (Payload Nat))) (fun _ => 0) 3 (Date.mk 2024 1 5) none).1 =
      PyResult.err (PyErr.requestException "Failed to fetch equities master after retries.")
    ∧ (fetch_statements (Config.mk "key" "https://api.jquants.com/v2" "" 0 0 1)
        (pureT ([] : List (Payload Nat))) (fun _ => 0) 3 (some "7203") none).1 =
      PyResult.err (PyErr.requestException "Failed to fetch statements after retries.")
    ∧ (fetch_equities_master (Config.mk "key" "https://api.jquants.com/v2" "" 0 0 1)
        (pureT ([] : List (Payload Nat))) (fun _ => 0) (Date.mk 2024 1 5) "7203" none).1 =
      Except.ok none :=
  zero_retry_budget (Config.mk "key" "https://api.jquants.com/v2" "" 0 0 1)
    (pureT ([] : List (Payload Nat))) (fun _ => 0) 3 (Date.mk 2024 1 5) "7203"
    (some "7203") none none none 0 (Params.mk none none none)
    (by decide) (by decide) (by decide) (by decide)
